import Mathlib

set_option autoImplicit false

/- A shallow embedding of the value-dispatch and aggregation layer of the
pytac accelerator-control library: the `Lattice` aggregate (pytac/lattice.py),
the EPICS binding adapters `EpicsLattice` / `EpicsElement` / `EpicsDevice` /
`PvEnabler` (pytac/epics.py), and the parts of the `Element` / manager
contract those modules consume.  Python exceptions are modelled as values of
an error type carried in `Except` results (or as an `Option` error component
where the mutated state on an escaping exception matters); Python numeric
values are modelled as rationals; control-system collaborators are passed in
explicitly as functions. -/

namespace Pytac

/- String constants from the pytac package root (pytac/__init__.py is not part
of the excerpt; the values are fixed by their use in the excerpt, e.g.
epics.py passes the literal string "setpoint" where a handle is expected). -/

/-- pytac.RB, the readback handle. -/
def RB : String := "readback"

/-- pytac.SP, the setpoint handle. -/
def SP : String := "setpoint"

/-- pytac.ENG, engineering units. -/
def ENG : String := "eng"

/-- pytac.PHYS, physics units. -/
def PHYS : String := "phys"

/-- pytac.LIVE, the live data source. -/
def LIVE : String := "live"

/-- pytac.SIM, the simulation data source. -/
def SIM : String := "sim"

/-- pytac.DEFAULT, the sentinel meaning use the configured default. -/
def DEFAULT : String := "default"

/-- The exception kinds raised by this layer (pytac/exceptions.py plus the
builtin ValueError and IndexError used by lattice.py), each carrying its
message string. -/
inductive PytacError where
  | unitsException (msg : String)
  | dataSourceException (msg : String)
  | fieldException (msg : String)
  | handleException (msg : String)
  | valueError (msg : String)
  | indexError (msg : String)
  deriving DecidableEq, Repr

/-- An EPICS device: a name plus optional readback and setpoint channel
identifiers (epics.py, class EpicsDevice).  The control-system collaborator
is supplied explicitly at each call in this model, and the enablement gate is
reduced to its boolean value. -/
structure EpicsDevice where
  name : String
  rb_pv : Option String
  sp_pv : Option String
  enabled : Bool
  deriving DecidableEq, Repr

/-- EpicsDevice.__init__ (epics.py lines 138-162): raises DataSourceException
when both channel arguments are Python None; any other combination is
accepted and simply stored. -/
def EpicsDevice.make (name : String) (enabled : Bool)
    (rb_pv sp_pv : Option String) : Except PytacError EpicsDevice :=
  if rb_pv = none ∧ sp_pv = none then
    .error (.dataSourceException ("At least one PV, either " ++ RB ++ " or "
      ++ SP ++ " is required when creating an EpicsDevice."))
  else
    .ok ⟨name, rb_pv, sp_pv, enabled⟩

/-- Python truthiness of an optional channel string: None and the empty
string are falsy, every other string is truthy.  EpicsDevice.get_value and
EpicsDevice.get_pv_name test `self.rb_pv` / `self.sp_pv` this way. -/
def pvTruthy : Option String → Bool
  | none => false
  | some s => !s.isEmpty

/-- EpicsDevice.get_value (epics.py lines 187-205): dispatch on the handle
and the truthiness of the corresponding channel; on success perform a
single-channel get through the control system. -/
def EpicsDevice.get_value (d : EpicsDevice) (cs : String → ℚ)
    (handle : String) : Except PytacError ℚ :=
  if handle = RB ∧ pvTruthy d.rb_pv then
    .ok (cs (d.rb_pv.getD ""))
  else if handle = SP ∧ pvTruthy d.sp_pv then
    .ok (cs (d.sp_pv.getD ""))
  else
    .error (.handleException ("Device " ++ d.name ++ " has no " ++ handle
      ++ " PV."))

/-- A single-channel put issued to the control system, recorded as data. -/
structure CsPut where
  pv : String
  value : ℚ
  deriving DecidableEq, Repr

/-- EpicsDevice.set_value (epics.py lines 172-185): raises HandleException
when the setpoint channel is Python None (note: `is None`, not truthiness),
otherwise issues one put to the setpoint channel. -/
def EpicsDevice.set_value (d : EpicsDevice) (value : ℚ) :
    Except PytacError CsPut :=
  match d.sp_pv with
  | none => .error (.handleException ("Device " ++ d.name
      ++ " has no setpoint PV."))
  | some pv => .ok ⟨pv, value⟩

/-- EpicsDevice.get_pv_name (epics.py lines 207-225): same dispatch as
get_value but returns the channel identifier. -/
def EpicsDevice.get_pv_name (d : EpicsDevice) (handle : String) :
    Except PytacError String :=
  if handle = RB ∧ pvTruthy d.rb_pv then
    .ok (d.rb_pv.getD "")
  else if handle = SP ∧ pvTruthy d.sp_pv then
    .ok (d.sp_pv.getD "")
  else
    .error (.handleException ("Device " ++ d.name ++ " has no " ++ handle
      ++ " PV."))

/- PvEnabler (epics.py lines 228-273).  The normalization chain used both at
construction and at every evaluation is str(int(float(x))); Python float()
on the decimal literals this layer deals in is exact, so the conversion is
modelled as exact parsing of an optionally signed decimal numeral into a
rational, and int() as truncation toward zero. -/

/-- The natural number denoted by a list of decimal digit characters. -/
def natOfDigits (cs : List Char) : Nat :=
  cs.foldl (fun a c => a * 10 + (c.toNat - 48)) 0

/-- Split a character list at the first dot: integer part and, when a dot is
present, the remainder after it. -/
def splitFrac : List Char → List Char × Option (List Char)
  | [] => ([], none)
  | c :: cs =>
    if c = '.' then ([], some cs)
    else
      let p := splitFrac cs
      (c :: p.1, p.2)

/-- Python float() restricted to plain optionally signed decimal literals
(such as "2", "1.0", "-3.5"), whose float value is exact: the literal
ip.fp denotes the rational (ip followed by fp as digits) / 10 ^ (number of
fractional digits).  Anything else is a conversion failure. -/
def pyFloat (s : String) : Option ℚ :=
  let sgncs : Int × List Char :=
    match s.data with
    | '-' :: rest => (-1, rest)
    | '+' :: rest => (1, rest)
    | rest => (1, rest)
  let parts := splitFrac sgncs.2
  let fp := parts.2.getD []
  if (parts.1 ++ fp).all Char.isDigit ∧ parts.1 ++ fp ≠ [] then
    some (mkRat (sgncs.1 * (natOfDigits (parts.1 ++ fp) : Int))
      ((10 : Nat) ^ fp.length))
  else
    none

/-- Python int() on a float value: truncation toward zero. -/
def pyInt (q : ℚ) : Int :=
  if 0 ≤ q then q.floor else q.ceil

/-- The str(int(float(x))) normalization used by PvEnabler, as a partial
function (None models a float() conversion failure). -/
def pyNormalize (s : String) : Option String :=
  (pyFloat s).map (fun q => toString (pyInt q))

/-- PvEnabler state: the bound channel name and the enabled-value as
normalized at construction (epics.py line 251). -/
structure PvEnabler where
  pv : String
  enabledValue : String
  deriving DecidableEq, Repr

/-- PvEnabler.__init__ (epics.py lines 240-252): the enabled-value is
normalized eagerly; a value float() cannot convert makes construction fail. -/
def PvEnabler.make (pv enabled_value : String) : Option PvEnabler :=
  (pyNormalize enabled_value).map (fun n => ⟨pv, n⟩)

/-- PvEnabler.__nonzero__ / __bool__ (epics.py lines 254-273): read the
current value of the bound channel through the control system, normalize it,
and compare for exact string equality with the stored normalized
enabled-value.  The read happens on every evaluation; nothing is cached. -/
def PvEnabler.nonzero (e : PvEnabler) (cs : String → String) : Option Bool :=
  (pyNormalize (cs e.pv)).map (fun n => e.enabledValue == n)

/-- An element of the lattice.  element.py is not part of the excerpt; the
fields are the contract consumed by lattice.py and epics.py: `families` (set
of category labels), `cell`, `s`, `length`, the LIVE data source's
field-to-device mapping used by get_device / get_pv_name (`none` models an
element with no LIVE data source registered at all), and the element
manager's mutable defaults touched by the lattice default-propagation
methods. -/
structure Element where
  name : String
  families : List String
  cell : Int
  s : ℚ
  length : ℚ
  liveDevices : Option (List (String × EpicsDevice))
  defaultUnits : String
  defaultDataSource : String
  deriving DecidableEq, Repr

/-- First device registered under a field in a field-to-device mapping. -/
def lookupField (m : List (String × EpicsDevice)) (field : String) :
    Option EpicsDevice :=
  (m.find? (fun p => p.1 == field)).map (fun p => p.2)

/-- Modelled from the spec: Element.get_device (element.py and
data_source.py are not in the excerpt).  Per the manager contract,
get_device returns the device registered for the field on the LIVE data
source and fails with a DataSourceError-class error if it is absent (either
because no device data source is set or because the field has no device). -/
def Element.get_device (e : Element) (field : String) :
    Except PytacError EpicsDevice :=
  match e.liveDevices with
  | none => .error (.dataSourceException ("No device data source on element "
      ++ e.name ++ "."))
  | some m =>
    match lookupField m field with
    | some d => .ok d
    | none => .error (.dataSourceException ("No device on field " ++ field
        ++ " of element " ++ e.name ++ "."))

/-- EpicsElement.get_pv_name (epics.py lines 93-115): look up the LIVE data
source directly (a missing LIVE entry is a KeyError, re-raised as
DataSourceException naming the element), ask it for the field's device (a
missing field is a FieldException, re-raised naming the element), then ask
the device for the channel at the handle (a HandleException from the device
propagates unwrapped). -/
def Element.get_pv_name (e : Element) (field handle : String) :
    Except PytacError String :=
  match e.liveDevices with
  | none => .error (.dataSourceException ("No data source for field " ++ field
      ++ " on element " ++ e.name ++ "."))
  | some m =>
    match lookupField m field with
    | none => .error (.fieldException ("No field " ++ field ++ " on element "
        ++ e.name ++ "."))
    | some d => d.get_pv_name handle

/-- One per-element setpoint write issued by a bulk set operation, recorded
as data: the target element and field, the value, and the handle, units and
data-source arguments the element-level set_value call receives. -/
structure Write where
  element : String
  field : String
  value : ℚ
  handle : String
  units : String
  dataSource : String
  deriving DecidableEq, Repr

/-- Modelled from the spec: Element.set_value (element.py is not in the
excerpt).  Per the manager contract it dispatches one write for the field
with the given handle, units and data source; the write is recorded as data.
Its Python signature defaults units and data_source to pytac.DEFAULT, so a
caller passing only a handle issues a write with no unit or data-source
override. -/
def Element.set_value (e : Element) (field : String) (value : ℚ)
    (handle : String) (units : String := DEFAULT)
    (dataSource : String := DEFAULT) : Write :=
  ⟨e.name, field, value, handle, units, dataSource⟩

/-- The lattice (lattice.py): a name, the ordered element list `_lattice`,
and the mutable defaults of the lattice's own DataSourceManager. -/
structure Lattice where
  name : String
  lattice : List Element
  defaultUnits : String
  defaultDataSource : String
  deriving DecidableEq, Repr

/-- The test `family in element.families` performed by Lattice.get_elements,
where family may be Python None: None is never a member of a set of family
label strings. -/
def famMatch (family : Option String) (e : Element) : Bool :=
  match family with
  | none => false
  | some f => e.families.contains f

/-- Python str() of the optional family argument, as used in the error
message of the empty-family check. -/
def famStr : Option String → String
  | none => "None"
  | some f => f

/-- Python str() of the optional cell argument, as used in the error message
of the empty-cell check. -/
def cellStr : Option Int → String
  | none => "None"
  | some c => toString c

/-- Lattice.get_elements (lattice.py lines 221-250).  The accumulator starts
as the whole element list when family is None and empty otherwise; the loop
then appends every element whose families contain the family argument (a
no-op when family is None).  A first ValueError is raised if the family
filter yields zero elements; only then, if a cell is given, the list is
restricted to that cell, and a second ValueError is raised if zero elements
remain. -/
def Lattice.get_elements (l : Lattice) (family : Option String := none)
    (cell : Option Int := none) : Except PytacError (List Element) :=
  let elements := (if family.isNone then l.lattice else [])
    ++ l.lattice.filter (famMatch family)
  if elements.length = 0 then
    .error (.valueError ("No elements in family " ++ famStr family ++ "."))
  else
    let elements2 :=
      match cell with
      | none => elements
      | some c => elements.filter (fun e => e.cell == c)
    if elements2.length = 0 then
      .error (.valueError ("No elements in cell " ++ cellStr cell ++ "."))
    else
      .ok elements2

/-- Lattice.get_length (lattice.py lines 202-211): sum of element lengths
over the full element sequence. -/
def Lattice.get_length (l : Lattice) : ℚ :=
  l.lattice.foldl (fun acc e => acc + e.length) 0

/-- The device-collection loop of Lattice.get_element_devices: walk the
elements in order; a successful device lookup contributes the device, a
DataSourceException from the lookup is caught and contributes only the
printed diagnostic line (second component). -/
def collectDevices (elements : List Element) (field : String) :
    List EpicsDevice × List String :=
  match elements with
  | [] => ([], [])
  | e :: rest =>
    let p := collectDevices rest field
    match e.get_device field with
    | .ok d => (d :: p.1, p.2)
    | .error _ => (p.1, ("No device for field " ++ field ++ " on element "
        ++ e.name ++ ".") :: p.2)

/-- Lattice.get_element_devices (lattice.py lines 278-301): resolve the
family, then collect each member's device for the field, skipping members
whose lookup raises DataSourceException with a printed (non-fatal)
diagnostic.  The result pairs the collected devices with the printed
diagnostic lines. -/
def Lattice.get_element_devices (l : Lattice) (family field : String) :
    Except PytacError (List EpicsDevice × List String) :=
  match l.get_elements (some family) none with
  | .error e => .error e
  | .ok elements => .ok (collectDevices elements field)

/-- Lattice.set_element_values (lattice.py lines 340-360): resolve the
family, raise IndexError when the value count differs from the element
count (before any write is issued), otherwise issue one setpoint write per
element pairing elements with values positionally.  The first component is
the list of issued writes, the second the escaping exception if any. -/
def Lattice.set_element_values (l : Lattice) (family field : String)
    (values : List ℚ) : List Write × Option PytacError :=
  match l.get_elements (some family) none with
  | .error e => ([], some e)
  | .ok elements =>
    if elements.length ≠ values.length then
      ([], some (.indexError ("Number of elements in given array must be "
        ++ "equal to the number of elements in the family.")))
    else
      ((elements.zip values).map (fun p => p.1.set_value field p.2 SP), none)

/-- Lattice.set_default_units (lattice.py lines 362-381): a valid unit type
(pytac.ENG or pytac.PHYS) is first written to the lattice manager, then
get_elements() is called and each element manager is updated in turn (an
exception escaping from get_elements leaves only the lattice-level default
changed); Python None falls through both branches as a no-op; any other
value raises UnitsException before any mutation. -/
def Lattice.set_default_units (l : Lattice) (u : Option String) :
    Lattice × Option PytacError :=
  match u with
  | none => (l, none)
  | some v =>
    if v = ENG ∨ v = PHYS then
      let l1 : Lattice := { l with defaultUnits := v }
      match l1.get_elements none none with
      | .error e => (l1, some e)
      | .ok _ =>
        ({ l1 with
            lattice := l1.lattice.map (fun el => { el with defaultUnits := v }) },
          none)
    else
      (l, some (.unitsException (v ++ " is not a unit type. Please enter "
        ++ ENG ++ " or " ++ PHYS ++ ".")))

/-- Lattice.set_default_data_source (lattice.py lines 383-404): identical
shape to set_default_units with pytac.LIVE / pytac.SIM and
DataSourceException. -/
def Lattice.set_default_data_source (l : Lattice) (u : Option String) :
    Lattice × Option PytacError :=
  match u with
  | none => (l, none)
  | some v =>
    if v = LIVE ∨ v = SIM then
      let l1 : Lattice := { l with defaultDataSource := v }
      match l1.get_elements none none with
      | .error e => (l1, some e)
      | .ok _ =>
        ({ l1 with
            lattice := l1.lattice.map (fun el => { el with defaultDataSource := v }) },
          none)
    else
      (l, some (.dataSourceException (v ++ " is not a data source. Please "
        ++ "enter " ++ LIVE ++ " or " ++ SIM ++ ".")))

/-- Lattice.get_value (lattice.py lines 120-150): delegate to the
lattice-level DataSourceManager (passed here as a function, since the
manager body is external); a DataSourceException from the manager is
re-raised as a DataSourceException naming the requested data source and the
lattice, a FieldException as a FieldException naming the lattice and the
field; any other outcome passes through.  Python formats the lattice object
itself into the message; its rendering is modelled by the lattice name. -/
def Lattice.get_value (l : Lattice)
    (mgrGet : String → String → String → String → Except PytacError ℚ)
    (field : String) (handle : String := RB) (units : String := DEFAULT)
    (data_source : String := DEFAULT) : Except PytacError ℚ :=
  match mgrGet field handle units data_source with
  | .error (.dataSourceException _) =>
    .error (.dataSourceException ("No data source " ++ data_source
      ++ " on lattice " ++ l.name ++ "."))
  | .error (.fieldException _) =>
    .error (.fieldException ("Lattice " ++ l.name
      ++ " does not have field " ++ field ++ "."))
  | r => r

/-- Lattice.set_value (lattice.py lines 152-177): same wrapping as
Lattice.get_value around the manager's set_value. -/
def Lattice.set_value (l : Lattice)
    (mgrSet : String → ℚ → String → String → String → Except PytacError Unit)
    (field : String) (value : ℚ) (handle : String := SP)
    (units : String := DEFAULT) (data_source : String := DEFAULT) :
    Except PytacError Unit :=
  match mgrSet field value handle units data_source with
  | .error (.dataSourceException _) =>
    .error (.dataSourceException ("No data source " ++ data_source
      ++ " on lattice " ++ l.name ++ "."))
  | .error (.fieldException _) =>
    .error (.fieldException ("Lattice " ++ l.name
      ++ " does not have field " ++ field ++ "."))
  | r => r

/-- The name-resolution loop of EpicsLattice.get_pv_names: one channel name
per element in order; the first exception raised by an element's
get_pv_name aborts the loop and propagates. -/
def mapPvNames (elements : List Element) (field handle : String) :
    Except PytacError (List String) :=
  match elements with
  | [] => .ok []
  | e :: rest =>
    match e.get_pv_name field handle with
    | .error err => .error err
    | .ok pv =>
      match mapPvNames rest field handle with
      | .error err => .error err
      | .ok pvs => .ok (pv :: pvs)

/-- EpicsLattice.get_pv_names (epics.py lines 28-46): resolve the family and
collect each member's channel name for the field and handle. -/
def Lattice.get_pv_names (l : Lattice) (family field handle : String) :
    Except PytacError (List String) :=
  match l.get_elements (some family) none with
  | .error e => .error e
  | .ok elements => mapPvNames elements field handle

/-- EpicsLattice.get_values (epics.py lines 48-65): resolve all channel
names, issue one batched get through the control-system collaborator, and
optionally coerce the result through the dtype conversion (numpy.array with
a fixed dtype, modelled as an elementwise conversion).  The result carries
the list of batched get calls issued to the transport; the implementation
issues exactly one, covering every resolved name. -/
def Lattice.get_values (l : Lattice) (batchGet : List String → List ℚ)
    (family field handle : String) (dtype : Option (ℚ → ℚ) := none) :
    Except PytacError (List ℚ × List (List String)) :=
  match l.get_pv_names family field handle with
  | .error e => .error e
  | .ok pv_names =>
    let values := batchGet pv_names
    let values2 :=
      match dtype with
      | none => values
      | some coe => values.map coe
    .ok (values2, [pv_names])

/- Concrete sample data used to instantiate the theorems below on closed
inputs. -/

/-- A sample device with both channels. -/
def devX : EpicsDevice := ⟨"DEV-X", some "X:RB", some "X:SP", true⟩

/-- A second sample device with both channels. -/
def devY : EpicsDevice := ⟨"DEV-Y", some "Y:RB", some "Y:SP", true⟩

/-- A BPM element in cell 1 carrying a device on field "x". -/
def elemA : Element := ⟨"EA", ["BPM"], 1, 0, 1, some [("x", devX)], ENG, LIVE⟩

/-- An element in both the BPM and QUAD families, cell 2, with a device on
field "x". -/
def elemB : Element :=
  ⟨"EB", ["BPM", "QUAD"], 2, 1, 1, some [("x", devY)], ENG, LIVE⟩

/-- A QUAD element with no LIVE data source at all. -/
def elemC : Element := ⟨"EC", ["QUAD"], 1, 2, 2, none, ENG, LIVE⟩

/-- A three-element sample lattice. -/
def latSample : Lattice := ⟨"LAT", [elemA, elemB, elemC], ENG, LIVE⟩

/- Helper lemmas shared by several claim proofs. -/

theorem filter_famMatch_none (l : List Element) :
    l.filter (famMatch none) = [] := by
  induction l with
  | nil => rfl
  | cons e rest ih => simp [List.filter, famMatch, ih]

theorem get_elements_none (l : Lattice) (h : l.lattice ≠ []) :
    l.get_elements none none = .ok l.lattice := by
  simp [Lattice.get_elements, filter_famMatch_none, List.length_eq_zero, h]

theorem length_ne_zero_of_ne_nil {α : Type} {l : List α} (h : l ≠ []) :
    l.length ≠ 0 :=
  fun hh => h (List.length_eq_zero.mp hh)

theorem get_elements_fam_empty (l : Lattice) (f : String) (c : Option Int)
    (hf : l.lattice.filter (famMatch (some f)) = []) :
    l.get_elements (some f) c
      = .error (.valueError ("No elements in family " ++ f ++ ".")) := by
  simp [Lattice.get_elements, hf, famStr]

theorem get_elements_some_none_ok (l : Lattice) (f : String)
    (hf : l.lattice.filter (famMatch (some f)) ≠ []) :
    l.get_elements (some f) none
      = .ok (l.lattice.filter (famMatch (some f))) := by
  unfold Lattice.get_elements
  simp only [Option.isNone_some, Bool.false_eq_true, if_false, List.nil_append]
  rw [if_neg (length_ne_zero_of_ne_nil hf)]
  exact if_neg (length_ne_zero_of_ne_nil hf)

theorem get_elements_cell_empty (l : Lattice) (f : String) (cv : Int)
    (hf : l.lattice.filter (famMatch (some f)) ≠ [])
    (hc : (l.lattice.filter (famMatch (some f))).filter
      (fun e => e.cell == cv) = []) :
    l.get_elements (some f) (some cv)
      = .error (.valueError ("No elements in cell " ++ toString cv ++ ".")) := by
  unfold Lattice.get_elements
  simp only [Option.isNone_some, Bool.false_eq_true, if_false, List.nil_append]
  rw [if_neg (length_ne_zero_of_ne_nil hf)]
  simp [cellStr, hc]

theorem get_elements_cell_ok (l : Lattice) (f : String) (cv : Int)
    (hf : l.lattice.filter (famMatch (some f)) ≠ [])
    (hc : (l.lattice.filter (famMatch (some f))).filter
      (fun e => e.cell == cv) ≠ []) :
    l.get_elements (some f) (some cv)
      = .ok ((l.lattice.filter (famMatch (some f))).filter
          (fun e => e.cell == cv)) := by
  unfold Lattice.get_elements
  simp only [Option.isNone_some, Bool.false_eq_true, if_false, List.nil_append]
  rw [if_neg (length_ne_zero_of_ne_nil hf)]
  exact if_neg (length_ne_zero_of_ne_nil hc)

/-- Claim C9 (counterexample): on a lattice containing zero elements,
get_elements() with no family argument does not return the (empty) element
list; it raises the empty-family ValueError, because the length check fires
on the unfiltered list as well. -/
theorem claim_C9_counterexample :
    Lattice.get_elements ⟨"LAT0", [], ENG, LIVE⟩ none none
      = .error (.valueError "No elements in family None.") ∧
    (Lattice.get_elements ⟨"LAT0", [], ENG, LIVE⟩ none none).toOption = none :=
  ⟨rfl, rfl⟩

/-- Claim C9 (amended): on every lattice with at least one element,
get_elements() called with no family argument returns all of the lattice's
elements, unfiltered, in construction order; on an empty lattice it instead
raises a ValueError-class error. -/
theorem claim_C9 (l : Lattice) (h : l.lattice ≠ []) :
    l.get_elements none none = .ok l.lattice :=
  get_elements_none l h

/-- Claim C9 (witness): the amended statement evaluated on the sample
lattice. -/
theorem claim_C9_witness :
    Lattice.get_elements latSample none none = .ok [elemA, elemB, elemC] :=
  claim_C9 latSample (by decide)

/-- Claim C1: get_elements with a family argument selects exactly the
elements whose families contain the family, in lattice order; it raises the
empty-family ValueError whenever that selection is empty (for every cell
argument, so the cell check is never reached in that case); with a cell
argument it further restricts to that cell and raises the distinct
empty-cell ValueError only when the family filter has already passed. -/
theorem claim_C1 (l : Lattice) (f : String) (c : Option Int) :
    (l.lattice.filter (famMatch (some f)) = [] →
      l.get_elements (some f) c
        = .error (.valueError ("No elements in family " ++ f ++ "."))) ∧
    (∀ res, l.get_elements (some f) none = .ok res →
      res = l.lattice.filter (famMatch (some f)) ∧
      ∀ e, e ∈ res ↔ e ∈ l.lattice ∧ f ∈ e.families) ∧
    (∀ cv, l.lattice.filter (famMatch (some f)) ≠ [] →
      (l.lattice.filter (famMatch (some f))).filter (fun e => e.cell == cv)
        = [] →
      l.get_elements (some f) (some cv)
        = .error (.valueError ("No elements in cell " ++ toString cv ++ "."))) ∧
    (∀ cv res, l.get_elements (some f) (some cv) = .ok res →
      res = (l.lattice.filter (famMatch (some f))).filter
        (fun e => e.cell == cv) ∧
      ∀ e, e ∈ res ↔ (e ∈ l.lattice ∧ f ∈ e.families) ∧ e.cell = cv) := by
  refine ⟨fun hf => get_elements_fam_empty l f c hf, ?_, ?_, ?_⟩
  · intro res h
    by_cases hf : l.lattice.filter (famMatch (some f)) = []
    · rw [get_elements_fam_empty l f none hf] at h
      exact absurd h (by simp)
    · rw [get_elements_some_none_ok l f hf] at h
      injection h with h
      refine ⟨h.symm, ?_⟩
      subst h
      intro e
      simp [List.mem_filter, famMatch, List.contains]
  · intro cv hf hc
    exact get_elements_cell_empty l f cv hf hc
  · intro cv res h
    by_cases hf : l.lattice.filter (famMatch (some f)) = []
    · rw [get_elements_fam_empty l f (some cv) hf] at h
      exact absurd h (by simp)
    · by_cases hc : (l.lattice.filter (famMatch (some f))).filter
        (fun e => e.cell == cv) = []
      · rw [get_elements_cell_empty l f cv hf hc] at h
        exact absurd h (by simp)
      · rw [get_elements_cell_ok l f cv hf hc] at h
        injection h with h
        refine ⟨h.symm, ?_⟩
        subst h
        intro e
        simp only [List.mem_filter, famMatch, List.contains, and_assoc,
          List.elem_eq_mem, decide_eq_true_eq, beq_iff_eq]

/-- Claim C1 (witness): on the sample lattice, an unknown family raises the
empty-family error even with a cell given, a known family with an
unpopulated cell raises the empty-cell error, and a known family with a
populated cell returns its members in lattice order. -/
theorem claim_C1_witness :
    Lattice.get_elements latSample (some "SEXT") (some 1)
      = .error (.valueError "No elements in family SEXT.") ∧
    Lattice.get_elements latSample (some "BPM") (some 5)
      = .error (.valueError "No elements in cell 5.") ∧
    [elemC] = (latSample.lattice.filter (famMatch (some "QUAD"))).filter
      (fun e => e.cell == 1) :=
  ⟨(claim_C1 latSample "SEXT" (some 1)).1 (by decide),
   (claim_C1 latSample "BPM" none).2.2.1 5 (by decide) (by decide),
   ((claim_C1 latSample "QUAD" none).2.2.2 1 [elemC] rfl).1⟩

/-- Claim C3 (counterexample): on a lattice with zero elements,
set_default_units with the valid value ENG does not return normally: the
internal get_elements() call raises the empty-family ValueError after the
lattice-level default has already been changed (here from PHYS to ENG). -/
theorem claim_C3_counterexample :
    Lattice.set_default_units ⟨"LAT0", [], PHYS, LIVE⟩ (some ENG)
      = (⟨"LAT0", [], ENG, LIVE⟩,
         some (.valueError "No elements in family None.")) ∧
    (Lattice.set_default_units ⟨"LAT0", [], PHYS, LIVE⟩ (some ENG)).2.isSome
      = true :=
  ⟨rfl, rfl⟩

/-- Claim C3 (amended): on every lattice with at least one element,
set_default_units with ENG or PHYS returns normally having set the default
units on the lattice's own manager and on every element's manager in the
same call; None is accepted as a no-op; any other value raises
UnitsException and leaves the lattice and every element unchanged; the
analogous property holds for set_default_data_source with LIVE/SIM and
DataSourceException.  (On an empty lattice a valid value instead raises the
ValueError-class error from the internal get_elements() call, after setting
the lattice-level default.) -/
theorem claim_C3 (l : Lattice) (hl : l.lattice ≠ []) :
    (∀ v, v = ENG ∨ v = PHYS →
      l.set_default_units (some v)
        = (⟨l.name, l.lattice.map (fun el => { el with defaultUnits := v }),
            v, l.defaultDataSource⟩, none) ∧
      (l.set_default_units (some v)).1.defaultUnits = v ∧
      ∀ el, el ∈ (l.set_default_units (some v)).1.lattice →
        el.defaultUnits = v) ∧
    l.set_default_units none = (l, none) ∧
    (∀ v, v ≠ ENG → v ≠ PHYS →
      l.set_default_units (some v)
        = (l, some (.unitsException (v ++ " is not a unit type. Please enter "
            ++ ENG ++ " or " ++ PHYS ++ ".")))) ∧
    (∀ v, v = LIVE ∨ v = SIM →
      l.set_default_data_source (some v)
        = (⟨l.name, l.lattice.map (fun el => { el with defaultDataSource := v }),
            l.defaultUnits, v⟩, none) ∧
      (l.set_default_data_source (some v)).1.defaultDataSource = v ∧
      ∀ el, el ∈ (l.set_default_data_source (some v)).1.lattice →
        el.defaultDataSource = v) ∧
    l.set_default_data_source none = (l, none) ∧
    (∀ v, v ≠ LIVE → v ≠ SIM →
      l.set_default_data_source (some v)
        = (l, some (.dataSourceException (v ++ " is not a data source. Please "
            ++ "enter " ++ LIVE ++ " or " ++ SIM ++ ".")))) := by
  refine ⟨?_, rfl, ?_, ?_, rfl, ?_⟩
  · intro v hv
    have hg : ({ l with defaultUnits := v } : Lattice).get_elements none none
        = .ok l.lattice := get_elements_none _ hl
    have heq : l.set_default_units (some v)
        = (⟨l.name, l.lattice.map (fun el => { el with defaultUnits := v }),
            v, l.defaultDataSource⟩, none) := by
      simp only [Lattice.set_default_units]
      rw [if_pos hv]
      simp only [hg]
    refine ⟨heq, by rw [heq], ?_⟩
    rw [heq]
    intro el hel
    simp only [List.mem_map] at hel
    obtain ⟨x, _, rfl⟩ := hel
    rfl
  · intro v h1 h2
    simp only [Lattice.set_default_units]
    rw [if_neg (fun hv => hv.elim h1 h2)]
  · intro v hv
    have hg : ({ l with defaultDataSource := v } : Lattice).get_elements
        none none = .ok l.lattice := get_elements_none _ hl
    have heq : l.set_default_data_source (some v)
        = (⟨l.name, l.lattice.map (fun el => { el with defaultDataSource := v }),
            l.defaultUnits, v⟩, none) := by
      simp only [Lattice.set_default_data_source]
      rw [if_pos hv]
      simp only [hg]
    refine ⟨heq, by rw [heq], ?_⟩
    rw [heq]
    intro el hel
    simp only [List.mem_map] at hel
    obtain ⟨x, _, rfl⟩ := hel
    rfl
  · intro v h1 h2
    simp only [Lattice.set_default_data_source]
    rw [if_neg (fun hv => hv.elim h1 h2)]

/-- Claim C3 (witness): the amended statement evaluated on the sample
lattice, for a valid and for an invalid unit type. -/
theorem claim_C3_witness :
    Lattice.set_default_units latSample (some PHYS)
      = (⟨"LAT", latSample.lattice.map (fun el => { el with defaultUnits := PHYS }),
          PHYS, LIVE⟩, none) ∧
    Lattice.set_default_units latSample (some "centimetres")
      = (latSample, some (.unitsException ("centimetres is not a unit type. "
          ++ "Please enter " ++ ENG ++ " or " ++ PHYS ++ "."))) :=
  ⟨((claim_C3 latSample (by decide)).1 PHYS (Or.inr rfl)).1,
   (claim_C3 latSample (by decide)).2.2.1 "centimetres" (by decide) (by decide)⟩

/-- Claim C2: once the family resolves to k elements, set_element_values
with a value list of any other length raises the IndexError before issuing
any write (the write trace is empty), and with a matching length it issues
exactly one setpoint write per element, pairing the i-th value with the i-th
element, with handle SP and the units and data-source arguments left at the
DEFAULT sentinel (no override). -/
theorem claim_C2 (l : Lattice) (F field : String) (values : List ℚ)
    (elems : List Element)
    (h : l.get_elements (some F) none = .ok elems) :
    (values.length ≠ elems.length →
      l.set_element_values F field values
        = ([], some (.indexError ("Number of elements in given array must be "
            ++ "equal to the number of elements in the family.")))) ∧
    (values.length = elems.length →
      l.set_element_values F field values
        = ((elems.zip values).map
            (fun p => p.1.set_value field p.2 SP DEFAULT DEFAULT), none) ∧
      ((elems.zip values).map
        (fun p => p.1.set_value field p.2 SP DEFAULT DEFAULT)).length
          = elems.length ∧
      ∀ i (h1 : i < elems.length) (h2 : i < values.length)
        (h3 : i < ((elems.zip values).map
          (fun p => p.1.set_value field p.2 SP DEFAULT DEFAULT)).length),
        ((elems.zip values).map
          (fun p => p.1.set_value field p.2 SP DEFAULT DEFAULT)).get ⟨i, h3⟩
          = ⟨(elems.get ⟨i, h1⟩).name, field, values.get ⟨i, h2⟩,
             SP, DEFAULT, DEFAULT⟩) := by
  constructor
  · intro hne
    simp only [Lattice.set_element_values, h]
    rw [if_pos (fun hh => hne hh.symm)]
  · intro heq
    refine ⟨?_, ?_, ?_⟩
    · simp only [Lattice.set_element_values, h]
      rw [if_neg (fun hh => hh heq.symm)]
    · simp [List.length_zip, heq]
    · intro i h1 h2 h3
      simp [List.get_eq_getElem, List.getElem_map, List.getElem_zip,
        Element.set_value]

/-- Claim C2 (witness): on the BPM family of the sample lattice (two
elements), a one-value list raises the IndexError with no writes issued,
and a two-value list issues the two positional setpoint writes. -/
theorem claim_C2_witness :
    Lattice.set_element_values latSample "BPM" "x" [1]
      = ([], some (.indexError ("Number of elements in given array must be "
          ++ "equal to the number of elements in the family."))) ∧
    Lattice.set_element_values latSample "BPM" "x" [4, 5]
      = (([elemA, elemB].zip [4, 5]).map
          (fun p => p.1.set_value "x" p.2 SP DEFAULT DEFAULT), none) :=
  ⟨(claim_C2 latSample "BPM" "x" [1] [elemA, elemB] rfl).1 (by decide),
   ((claim_C2 latSample "BPM" "x" [4, 5] [elemA, elemB] rfl).2 rfl).1⟩

/-- Claim C4: a PvEnabler evaluates by reading the bound channel's current
value through the control system on every evaluation (the same enabler gives
different answers under different channel states, so nothing is cached) and
is true exactly when the read value and the configured enabled-value agree
after the float-truncate-stringify normalization; in particular channel
value "1.0" with enabled-value "1" evaluates to true and channel value "2"
with enabled-value "1" evaluates to false. -/
theorem claim_C4 (pv ev : String) (e : PvEnabler)
    (h : PvEnabler.make pv ev = some e) (cs cs1 cs2 : String → String) :
    e.pv = pv ∧
    (∀ b, e.nonzero cs = some b →
      (b = true ↔ pyNormalize (cs pv) = pyNormalize ev)) ∧
    (cs1 pv = "1.0" → ev = "1" → e.nonzero cs1 = some true) ∧
    (cs2 pv = "2" → ev = "1" → e.nonzero cs2 = some false) := by
  cases hn : pyNormalize ev with
  | none =>
    simp only [PvEnabler.make, hn, Option.map_none'] at h
    exact Option.noConfusion h
  | some n =>
    simp only [PvEnabler.make, hn, Option.map_some', Option.some.injEq] at h
    subst h
    refine ⟨rfl, ?_, ?_, ?_⟩
    · intro b hb
      simp only [PvEnabler.nonzero] at hb
      cases hm : pyNormalize (cs pv) with
      | none => rw [hm] at hb; simp at hb
      | some m =>
        rw [hm] at hb
        simp only [Option.map_some', Option.some.injEq] at hb
        subst hb
        simp only [beq_iff_eq, Option.some.injEq]
        exact eq_comm
    · intro h1 h2
      subst h2
      have hn1 : n = "1" :=
        Option.some.inj ((show pyNormalize "1" = some "1" from rfl) ▸ hn).symm
      subst hn1
      simp only [PvEnabler.nonzero]
      rw [h1]
      decide
    · intro h1 h2
      subst h2
      have hn1 : n = "1" :=
        Option.some.inj ((show pyNormalize "1" = some "1" from rfl) ▸ hn).symm
      subst hn1
      simp only [PvEnabler.nonzero]
      rw [h1]
      decide

/-- Claim C4 (witness): the enabler bound to channel "X:STATE" with
enabled-value "1" evaluates to true when the channel reads "1.0" and to
false when it reads "2". -/
theorem claim_C4_witness :
    PvEnabler.nonzero ⟨"X:STATE", "1"⟩ (fun _ => "1.0") = some true ∧
    PvEnabler.nonzero ⟨"X:STATE", "1"⟩ (fun _ => "2") = some false :=
  ⟨(claim_C4 "X:STATE" "1" ⟨"X:STATE", "1"⟩ rfl (fun _ => "")
      (fun _ => "1.0") (fun _ => "2")).2.2.1 rfl rfl,
   (claim_C4 "X:STATE" "1" ⟨"X:STATE", "1"⟩ rfl (fun _ => "")
      (fun _ => "1.0") (fun _ => "2")).2.2.2 rfl rfl⟩

/-- Claim C5: EpicsDevice construction with neither channel raises the
DataSourceException; a device constructed with only a setpoint channel
raises HandleException on get_value(RB) and get_pv_name(RB); a device
constructed with only a readback channel raises HandleException on
set_value for every value and on get_value(SP) and get_pv_name(SP). -/
theorem claim_C5 :
    (∀ name en, EpicsDevice.make name en none none
      = .error (.dataSourceException ("At least one PV, either " ++ RB
          ++ " or " ++ SP ++ " is required when creating an EpicsDevice."))) ∧
    (∀ name en s, EpicsDevice.make name en none (some s)
      = .ok ⟨name, none, some s, en⟩) ∧
    (∀ name en s cs, EpicsDevice.get_value ⟨name, none, some s, en⟩ cs RB
      = .error (.handleException ("Device " ++ name ++ " has no " ++ RB
          ++ " PV."))) ∧
    (∀ name en s, EpicsDevice.get_pv_name ⟨name, none, some s, en⟩ RB
      = .error (.handleException ("Device " ++ name ++ " has no " ++ RB
          ++ " PV."))) ∧
    (∀ name en r, EpicsDevice.make name en (some r) none
      = .ok ⟨name, some r, none, en⟩) ∧
    (∀ name en r v, EpicsDevice.set_value ⟨name, some r, none, en⟩ v
      = .error (.handleException ("Device " ++ name
          ++ " has no setpoint PV."))) ∧
    (∀ name en r cs, EpicsDevice.get_value ⟨name, some r, none, en⟩ cs SP
      = .error (.handleException ("Device " ++ name ++ " has no " ++ SP
          ++ " PV."))) ∧
    (∀ name en r, EpicsDevice.get_pv_name ⟨name, some r, none, en⟩ SP
      = .error (.handleException ("Device " ++ name ++ " has no " ++ SP
          ++ " PV."))) := by
  have hrs : ¬(RB = SP) := by decide
  have hsr : ¬(SP = RB) := by decide
  refine ⟨?_, ?_, ?_, ?_, ?_, ?_, ?_, ?_⟩ <;> intros <;>
    simp [EpicsDevice.make, EpicsDevice.get_value, EpicsDevice.get_pv_name,
      EpicsDevice.set_value, pvTruthy, hrs, hsr]

/-- Claim C10: construction with rb_pv equal to the empty string and sp_pv
None succeeds (only the both-None case is rejected), yet on the resulting
device get_value and get_pv_name raise HandleException for every handle,
because the access paths test the channel string's truthiness and the empty
string is falsy. -/
theorem claim_C10 (name : String) (en : Bool) (cs : String → ℚ)
    (handle : String) :
    EpicsDevice.make name en (some "") none = .ok ⟨name, some "", none, en⟩ ∧
    EpicsDevice.get_value ⟨name, some "", none, en⟩ cs handle
      = .error (.handleException ("Device " ++ name ++ " has no " ++ handle
          ++ " PV.")) ∧
    EpicsDevice.get_pv_name ⟨name, some "", none, en⟩ handle
      = .error (.handleException ("Device " ++ name ++ " has no " ++ handle
          ++ " PV.")) := by
  have hte : pvTruthy (some "") = false := by decide
  have htn : pvTruthy (none : Option String) = false := rfl
  refine ⟨?_, ?_, ?_⟩ <;>
    simp [EpicsDevice.make, EpicsDevice.get_value, EpicsDevice.get_pv_name,
      hte, htn]

/-- Claim C7: whenever the lattice-level manager raises a DataSourceError or
FieldError inside Lattice.get_value or Lattice.set_value, the lattice
re-raises an error of the same kind whose description names the lattice
(and the requested data source or field); the manager error is neither
passed through unwrapped nor converted to a different kind. -/
theorem claim_C7 (l : Lattice)
    (mgrGet : String → String → String → String → Except PytacError ℚ)
    (mgrSet : String → ℚ → String → String → String → Except PytacError Unit)
    (field : String) (value : ℚ) (handle units ds : String) (m : String) :
    (mgrGet field handle units ds = .error (.dataSourceException m) →
      l.get_value mgrGet field handle units ds
        = .error (.dataSourceException ("No data source " ++ ds
            ++ " on lattice " ++ l.name ++ "."))) ∧
    (mgrGet field handle units ds = .error (.fieldException m) →
      l.get_value mgrGet field handle units ds
        = .error (.fieldException ("Lattice " ++ l.name
            ++ " does not have field " ++ field ++ "."))) ∧
    (mgrSet field value handle units ds = .error (.dataSourceException m) →
      l.set_value mgrSet field value handle units ds
        = .error (.dataSourceException ("No data source " ++ ds
            ++ " on lattice " ++ l.name ++ "."))) ∧
    (mgrSet field value handle units ds = .error (.fieldException m) →
      l.set_value mgrSet field value handle units ds
        = .error (.fieldException ("Lattice " ++ l.name
            ++ " does not have field " ++ field ++ "."))) := by
  refine ⟨?_, ?_, ?_, ?_⟩ <;> intro h <;>
    simp [Lattice.get_value, Lattice.set_value, h]

/-- Claim C7 (witness): a manager that raises a DataSourceException makes
the sample lattice's get_value report the re-described data-source error,
and one raising a FieldException makes set_value report the re-described
field error. -/
theorem claim_C7_witness :
    Lattice.get_value latSample
      (fun _ _ _ _ => .error (.dataSourceException "low-level detail"))
      "f" RB DEFAULT DEFAULT
      = .error (.dataSourceException "No data source default on lattice LAT.") ∧
    Lattice.set_value latSample
      (fun _ _ _ _ _ => .error (.fieldException "low-level detail"))
      "f" 1 SP DEFAULT DEFAULT
      = .error (.fieldException "Lattice LAT does not have field f.") :=
  ⟨(claim_C7 latSample
      (fun _ _ _ _ => .error (.dataSourceException "low-level detail"))
      (fun _ _ _ _ _ => .error (.fieldException "low-level detail"))
      "f" 1 RB DEFAULT DEFAULT "low-level detail").1 rfl,
   (claim_C7 latSample
      (fun _ _ _ _ => .error (.dataSourceException "low-level detail"))
      (fun _ _ _ _ _ => .error (.fieldException "low-level detail"))
      "f" 1 SP DEFAULT DEFAULT "low-level detail").2.2.2 rfl⟩

theorem collectDevices_eq (elements : List Element) (field : String) :
    collectDevices elements field
      = (elements.filterMap (fun e => (e.get_device field).toOption),
         elements.filterMap (fun e =>
           match e.get_device field with
           | .ok _ => none
           | .error _ => some ("No device for field " ++ field
               ++ " on element " ++ e.name ++ "."))) := by
  induction elements with
  | nil => rfl
  | cons e rest ih =>
    cases hd : e.get_device field <;>
      simp [collectDevices, hd, ih, Except.toOption, List.filterMap_cons]

theorem collectDevices_count (elements : List Element) (field : String) :
    (collectDevices elements field).1.length
      + (collectDevices elements field).2.length = elements.length := by
  induction elements with
  | nil => rfl
  | cons e rest ih =>
    cases hd : e.get_device field <;> simp [collectDevices, hd] <;> omega

/-- Claim C8: once the family resolves, get_element_devices completes
without raising (spec-modelled Element.get_device fails only with a
DataSourceError-class error, which the loop catches): it returns, in
lattice order, exactly the devices of the members that have a device for
the field, and one printed diagnostic line per member that lacks it, so
every member is accounted for. -/
theorem claim_C8 (l : Lattice) (F f : String) (elems : List Element)
    (h : l.get_elements (some F) none = .ok elems) :
    l.get_element_devices F f
      = .ok (elems.filterMap (fun e => (e.get_device f).toOption),
             elems.filterMap (fun e =>
               match e.get_device f with
               | .ok _ => none
               | .error _ => some ("No device for field " ++ f
                   ++ " on element " ++ e.name ++ "."))) ∧
    (elems.filterMap (fun e => (e.get_device f).toOption)).length
      + (elems.filterMap (fun e =>
          match e.get_device f with
          | .ok _ => none
          | .error _ => some ("No device for field " ++ f
              ++ " on element " ++ e.name ++ "."))).length
      = elems.length := by
  have hc := collectDevices_eq elems f
  have hn := collectDevices_count elems f
  rw [hc] at hn
  constructor
  · simp only [Lattice.get_element_devices, h, hc]
  · simpa using hn

/-- Claim C8 (witness): on the QUAD family of the sample lattice, elemB
contributes its device and elemC (which has no LIVE data source) is
skipped with the printed diagnostic; no exception is raised. -/
theorem claim_C8_witness :
    Lattice.get_element_devices latSample "QUAD" "x"
      = .ok ([devY], ["No device for field x on element EC."]) := by
  have h := (claim_C8 latSample "QUAD" "x" [elemB, elemC] rfl).1
  rw [h]
  rfl

theorem mapPvNames_spec {field handle : String} :
    ∀ {elements : List Element} {names : List String},
      mapPvNames elements field handle = .ok names →
      names.length = elements.length ∧
      ∀ i (h1 : i < elements.length) (h2 : i < names.length),
        (elements.get ⟨i, h1⟩).get_pv_name field handle
          = .ok (names.get ⟨i, h2⟩) := by
  intro elements
  induction elements with
  | nil =>
    intro names h
    simp only [mapPvNames, Except.ok.injEq] at h
    subst h
    exact ⟨rfl, fun i h1 h2 => absurd h1 (by simp)⟩
  | cons e rest ih =>
    intro names h
    simp only [mapPvNames] at h
    cases he : e.get_pv_name field handle with
    | error err => rw [he] at h; exact absurd h (by simp)
    | ok pv =>
      rw [he] at h
      cases hr : mapPvNames rest field handle with
      | error err => rw [hr] at h; exact absurd h (by simp)
      | ok pvs =>
        rw [hr] at h
        simp only [Except.ok.injEq] at h
        subst h
        obtain ⟨hlen, hpt⟩ := ih hr
        refine ⟨by simp [hlen], ?_⟩
        intro i h1 h2
        cases i with
        | zero => simpa using he
        | succ k => exact hpt k (by simpa using h1) (by simpa using h2)

/-- Claim C6: with an order-preserving batched-get collaborator, get_values
on a family of k elements resolves exactly k channel names, one per element
in lattice order, issues exactly one batched get covering all of them, and
returns k values whose i-th entry is the collaborator value of the i-th
element's channel, with the optional dtype coercion applied elementwise
when given. -/
theorem claim_C6 (l : Lattice) (batchGet : List String → List ℚ)
    (val : String → ℚ) (family field handle : String)
    (elems : List Element) (names : List String)
    (hcs : ∀ ns, batchGet ns = ns.map val)
    (helems : l.get_elements (some family) none = .ok elems)
    (hnames : l.get_pv_names family field handle = .ok names) :
    names.length = elems.length ∧
    (∀ i (h1 : i < elems.length) (h2 : i < names.length),
      (elems.get ⟨i, h1⟩).get_pv_name field handle
        = .ok (names.get ⟨i, h2⟩)) ∧
    l.get_values batchGet family field handle none
      = .ok (names.map val, [names]) ∧
    (names.map val).length = elems.length ∧
    (∀ i (h2 : i < names.length) (h3 : i < (names.map val).length),
      (names.map val).get ⟨i, h3⟩ = val (names.get ⟨i, h2⟩)) ∧
    (∀ coe, l.get_values batchGet family field handle (some coe)
      = .ok ((names.map val).map coe, [names])) := by
  have hm : mapPvNames elems field handle = .ok names := by
    simpa [Lattice.get_pv_names, helems] using hnames
  obtain ⟨hlen, hpt⟩ := mapPvNames_spec hm
  refine ⟨hlen, hpt, ?_, by simp [hlen], ?_, ?_⟩
  · simp [Lattice.get_values, Lattice.get_pv_names, helems, hm, hcs]
  · intro i h2 h3
    simp [List.get_eq_getElem, List.getElem_map]
  · intro coe
    simp [Lattice.get_values, Lattice.get_pv_names, helems, hm, hcs]

/-- Claim C6 (witness): on the BPM family of the sample lattice, the two
readback channel names resolve in lattice order, the single batched call
covers both, and the returned values are the collaborator values of those
channels in the same order. -/
theorem claim_C6_witness :
    Lattice.get_values latSample
      (fun ns => ns.map (fun n => if n = "X:RB" then (3 : ℚ) else 7))
      "BPM" "x" RB none
      = .ok ([3, 7], [["X:RB", "Y:RB"]]) := by
  have h := (claim_C6 latSample
      (fun ns => ns.map (fun n => if n = "X:RB" then (3 : ℚ) else 7))
      (fun n => if n = "X:RB" then (3 : ℚ) else 7)
      "BPM" "x" RB [elemA, elemB] ["X:RB", "Y:RB"]
      (fun _ => rfl) rfl rfl).2.2.1
  rw [h]
  rfl

end Pytac


